import Mathlib

/-!
Shallow embedding of the send-confirmation correlation engine of the
bluebubbles-server repository: the outbox scanner (`QueueService.getEntries`),
the send orchestrator (`MessageInterface`), and the configuration store
(`ServerRepository`).  Definitions are translated from the TypeScript
sources; components of the repository that are referenced by the sources but
not included in them (the poll-until awaiter `resultAwaiter`, the reaction
text maps, the placeholder media character, the object-parameter
`getMessages` query) are modelled from the specification and are marked as
such in their doc comments.  Timestamps are modelled as natural numbers of
milliseconds, JavaScript nullable fields as `Option`.
-/

namespace BlueBubbles

/-! ## String primitives

The JavaScript string operations the sources use, computed on the
character list of the string (so that every definition evaluates by
kernel reduction on concrete inputs). -/

/-- JavaScript `s.startsWith(p)`. -/
def strStartsWith (s p : String) : Bool :=
  p.data.isPrefixOf s.data

/-- JavaScript `s.endsWith(p)`. -/
def strEndsWith (s p : String) : Bool :=
  p.data.isSuffixOf s.data

/-- Split a character list at each leftmost occurrence of a non-empty
separator; `fuel` bounds the recursion and is instantiated with the list's
length. -/
def splitOnAux (sep : List Char) : Nat → List Char → List (List Char)
  | _, [] => [[]]
  | 0, l => [l]
  | fuel + 1, c :: rest =>
    if sep.isPrefixOf (c :: rest) then
      [] :: splitOnAux sep fuel ((c :: rest).drop sep.length)
    else
      match splitOnAux sep fuel rest with
      | [] => [[c]]
      | h :: t => (c :: h) :: t

/-- JavaScript `s.split(sep)` for a non-empty separator (the sources only
split on `"->"`, on the placeholder character and on `"coreaudio-format"`,
all non-empty). -/
def strSplitOn (s sep : String) : List String :=
  if sep.data.isEmpty then [s]
  else (splitOnAux sep.data s.data.length s.data).map String.mk

/-- An ASCII decimal digit (`\d` of the repository's integer regex). -/
def isAsciiDigit (c : Char) : Bool :=
  '0' ≤ c && c ≤ '9'

/-- The numeric value of a list of decimal digits. -/
def digitsToNat (l : List Char) : Nat :=
  l.foldl (fun acc c => acc * 10 + (c.toNat - 48)) 0

/-- The integer parse of `convertFromDbValue`: the regex `/^-{0,1}\d+$/`
followed by JavaScript `Number(...)` (which on such strings is an exact
integer). -/
def parseIntegerString (s : String) : Option Int :=
  match s.data with
  | '-' :: rest =>
    if !rest.isEmpty && rest.all isAsciiDigit then
      some (-(digitsToNat rest : Int))
    else none
  | l =>
    if !l.isEmpty && l.all isAsciiDigit then some (digitsToNat l : Int)
    else none

/-- An attachment row of the message store (`Attachment` entity): the fields
the embedded code reads. -/
structure AttachmentRec where
  guid : String
  transferName : String
  mimeType : Option String
  uti : Option String
  deriving DecidableEq

/-- One run of an attributed-body item; the embedded code reads the
`__kIMMessagePartAttributeName` attribute (here `partAttr`) and the
`__kIMFileTransferGUIDAttributeName` attribute (here `transferGuid`).
A missing attribute is `none`. -/
structure BodyRun where
  partAttr : Option Nat
  transferGuid : Option String
  deriving DecidableEq

/-- One item of a message's attributed body, holding its runs. -/
structure BodyItem where
  runs : List BodyRun
  deriving DecidableEq

/-- A message row of the system-of-record (`Message` entity), with the fields
the embedded code reads.  `chatGuid` stands for the chat the row is joined
to; `text` is nullable in the store; `universalText` models the
`universalText(false)` rendering helper of the entity (not in the included
sources; per the spec it is the record's content fingerprint). -/
structure MessageRec where
  guid : String
  text : Option String
  universalText : Option String
  isFromMe : Bool
  chatGuid : String
  date : Nat
  dateEdited : Option Nat
  didNotifyRecipient : Bool
  isSent : Bool
  attachments : List AttachmentRec
  attributedBody : List BodyItem
  deriving DecidableEq

/-- A persisted outbox entry (`Queue` entity): chat identifier, stored text,
temp identifier and creation time, as read by `QueueService.getEntries`. -/
structure QueueEntry where
  chatGuid : String
  text : String
  tempGuid : String
  dateCreated : Nat
  deriving DecidableEq

/-! ## Outbox scanner (`QueueService.getEntries`, src/unnamed/part_002) -/

/-- The expression `entry.text.split("->")[1]`: the attachment name stored in an outbox
entry's text after the `->` separator (`undefined` when there is no
separator, modelled as `none`). -/
def storedName (t : String) : Option String :=
  (strSplitOn t "->").get? 1

/-- The clause `length(message.text) = 1`: false on a null text, as in SQL. -/
def textLengthOne (m : MessageRec) : Bool :=
  match m.text with
  | some t => t.length == 1
  | none => false

/-- The clause `attachment.transfer_name = :name` with `name = entry.text.split("->")[1]`:
some attachment row joined to the message carries exactly the stored name. -/
def transferNameMatches (entry : QueueEntry) (m : MessageRec) : Bool :=
  m.attachments.any (fun a =>
    match storedName entry.text with
    | some n => a.transferName == n
    | none => false)

/-- The clause `message.text = :text`: false on a null text, as in SQL. -/
def textEquals (entry : QueueEntry) (m : MessageRec) : Bool :=
  match m.text with
  | some t => t == entry.text
  | none => false

/-- The list of extra `where` predicates `getEntries` builds for an entry,
mirroring the construction of the `DBWhereItem[]` array: text from yourself;
then, when the entry's text starts with its temp GUID (an attachment entry),
single-character text and a matching `attachment.transfer_name`; otherwise
exact text equality. -/
def whereItems (entry : QueueEntry) : List (MessageRec → Bool) :=
  let base : List (MessageRec → Bool) := [fun m => m.isFromMe]
  if strStartsWith entry.text entry.tempGuid then
    base ++ [textLengthOne, transferNameMatches entry]
  else
    base ++ [textEquals entry]

/-- Modelled from the spec: the system-of-record query layer
(`queryRecent(chat, limit, filters)`), as invoked by `getEntries` with
`chatGuid`, `after = entry.dateCreated`, `before = now`, the built `where`
items, ascending sort and a limit.  The base filters (chat membership, the
date window, non-null text) follow the repository's `getMessages` query
builder.  This returns the unsorted, unlimited candidate set; sorting and
the limit are applied by `queueMatches`. -/
def queueFilter (entry : QueueEntry) (now : Nat) (db : List MessageRec) :
    List MessageRec :=
  db.filter (fun m =>
    m.chatGuid == entry.chatGuid &&
    m.text.isSome &&
    entry.dateCreated ≤ m.date &&
    m.date < now &&
    (whereItems entry).all (fun p => p m))

/-- Insert a message into a list sorted ascending by `date`. -/
def insertByDate (m : MessageRec) : List MessageRec → List MessageRec
  | [] => [m]
  | x :: xs => if m.date ≤ x.date then m :: x :: xs else x :: insertByDate m xs

/-- Sort a candidate list ascending by `date` (the `sort: "ASC"` argument of
the query). -/
def sortByDateAsc (l : List MessageRec) : List MessageRec :=
  l.foldr insertByDate []

/-- The matches `getEntries` receives for a non-expired entry: the filtered
candidates, sorted ascending by date, limited to 3 rows (`limit: 3`). -/
def queueMatches (entry : QueueEntry) (now : Nat) (db : List MessageRec) :
    List MessageRec :=
  (sortByDateAsc (queueFilter entry now db)).take 3

/-- Events the scanner can emit for an entry on a tick: `message-timeout`
and `message-match` (carrying the entry's temp GUID and the matched row). -/
inductive QueueEvent where
  | timeout (entry : QueueEntry)
  | matched (tempGuid : String) (m : MessageRec)
  deriving DecidableEq

/-- Observable outcome of processing one outbox entry on one tick:
how many times `repo.remove(entry)` is invoked, the events emitted, and the
identifiers added to the event cache. -/
structure EntryTickResult where
  removeCalls : Nat
  events : List QueueEvent
  cacheAdds : List String
  deriving DecidableEq

/-- One entry's processing inside `QueueService.getEntries`: if the entry is
older than one minute, remove it and emit `message-timeout` without querying;
otherwise query the store and, for every returned match, add its guid to the
cache, emit `message-match`, and remove the entry. -/
def processEntry (now : Nat) (db : List MessageRec) (entry : QueueEntry) :
    EntryTickResult :=
  if now - entry.dateCreated > 1000 * 60 then
    { removeCalls := 1, events := [QueueEvent.timeout entry], cacheAdds := [] }
  else
    let ms := queueMatches entry now db
    { removeCalls := ms.length,
      events := ms.map (fun m => QueueEvent.matched entry.tempGuid m),
      cacheAdds := ms.map (fun m => m.guid) }

/-- Modelled from the spec: the placeholder-only marker character
(`invisibleMediaChar`, declared in the http service constants, not in the
included sources) used by the store for attachment-only message text. -/
def invisibleMediaChar : String := "￼"

/-- The matching rule exactly as the specification words it (for comparison
with the rule the code implements): self-origin, same chat, observed at or
after the entry's creation, and either text equality with the stored text,
or — when the entry records an attachment, i.e. its text starts with its
temp identifier — placeholder-only record text together with an attached
resource whose transfer name equals the name stored in the entry. -/
def specMatchRule (entry : QueueEntry) (m : MessageRec) : Bool :=
  m.isFromMe &&
  m.chatGuid == entry.chatGuid &&
  entry.dateCreated ≤ m.date &&
  ((m.text == some entry.text) ||
    (strStartsWith entry.text entry.tempGuid &&
      m.text == some invisibleMediaChar &&
      m.attachments.any (fun a =>
        match storedName entry.text with
        | some n => a.transferName == n
        | none => false)))

/-! ## Poll-until awaiter (`resultAwaiter`, helpers/utils — not in the
included sources) -/

/-- Modelled from the spec: the generic poll-until awaiter (`resultAwaiter`
of the helpers, not included in the sources).  On each tick it calls the
fetch function; when the result is non-null and the continuation predicate
("keep waiting even though a value was returned", default always false)
says stop, it returns the result; otherwise it retries on the next tick.
When the deadline elapses it returns a timeout failure (`none`).  `fetches`
gives the fetch result of each tick, `fuel` is the number of ticks the
deadline allows (`maxWaitMs` over the polling interval), and `k` counts the
ticks already spent. -/
def resultAwaiter (fetches : Nat → Option MessageRec)
    (keepWaiting : Option MessageRec → Bool) : Nat → Nat → Option MessageRec
  | 0, _ => none
  | fuel + 1, k =>
    match fetches k with
    | some m =>
      if keepWaiting (some m) then resultAwaiter fetches keepWaiting fuel (k + 1)
      else some m
    | none => resultAwaiter fetches keepWaiting fuel (k + 1)

/-- The default continuation predicate (callers passing no condition):
never keep waiting once a value is present. -/
def noExtraLoop : Option MessageRec → Bool := fun _ => false

/-! ## Send orchestrator (`MessageInterface`, src/unnamed/part_000) -/

/-- The mp3-to-caf name correction of `sendAttachmentSync`: when the name is
non-null, ends in `.mp3` and the send is an audio message, the awaiter name
is the same name with the final four characters replaced by `.caf`;
otherwise the name is unchanged. -/
def rewriteAttachmentName (attachmentName : Option String)
    (isAudioMessage : Bool) : Option String :=
  match attachmentName with
  | some n =>
    if strEndsWith n ".mp3" && isAudioMessage then
      some (n.dropRight 4 ++ ".caf")
    else some n
  | none => none

/-- The try/catch around the fallback expectation await of the private-api
branch of `sendAttachmentSync`.  `sentMessage` is what
`sendAttachmentPrivateApi` produced; `awaiterOutcome` is how the
`awaiter.promise` would end if awaited.  The try body awaits the promise
only when a record was obtained and it is not yet marked sent; the catch
swallows the failure (logging it) when a record was obtained, and rethrows
otherwise. -/
def attachmentPrivateApiConfirm (sentMessage : Option MessageRec)
    (awaiterOutcome : Except String MessageRec) :
    Except String (Option MessageRec) :=
  let tryResult : Except String (Option MessageRec) :=
    match sentMessage with
    | some m =>
      if !m.isSent then
        match awaiterOutcome with
        | Except.ok m2 => Except.ok (some m2)
        | Except.error e => Except.error e
      else Except.ok (some m)
    | none => Except.ok none
  match tryResult with
  | Except.ok r => Except.ok r
  | Except.error e =>
    match sentMessage with
    | some m => Except.ok (some m)
    | none => Except.error e

/-- The continuation predicate `editMessage` and `unsendMessage` pass to the
awaiter: `data => (data?.dateEdited ?? 0) <= currentEditDate` — keep looping
while the fetched record's edit date (a missing record or a missing edit
date counting as 0) is at most the captured baseline. -/
def editExtraLoopCondition (currentEditDate : Nat)
    (data : Option MessageRec) : Bool :=
  ((data.bind (fun m => m.dateEdited)).getD 0) ≤ currentEditDate

/-- The function `MessageInterface.editMessage`, with the external collaborators as
parameters: `privateApiEnabled` models `checkPrivateApiStatus` (per the
spec, a disabled privileged channel is a precondition error), `minVentura`
the platform gate, `preMsg` the record fetched before dispatch (from which
the edit-date baseline is captured), and `fetches`/`fuel` the post-dispatch
poll results and tick budget of the awaiter. -/
def editMessage (privateApiEnabled minVentura : Bool)
    (preMsg : Option MessageRec) (fetches : Nat → Option MessageRec)
    (fuel : Nat) : Except String MessageRec :=
  if !privateApiEnabled then Except.error "Private API is not enabled!"
  else if !minVentura then
    Except.error "Unsend message is only supported on macOS Ventura and newer!"
  else
    let currentEditDate := (preMsg.bind (fun m => m.dateEdited)).getD 0
    match resultAwaiter fetches (editExtraLoopCondition currentEditDate) fuel 0 with
    | some m => Except.ok m
    | none => Except.error "Failed to edit message! Message not edited after 30 seconds!"

/-- The function `MessageInterface.unsendMessage`: identical structure to `editMessage`
(gates, baseline capture, awaiter with the same continuation predicate),
differing only in the dispatched command and the failure message. -/
def unsendMessage (privateApiEnabled minVentura : Bool)
    (preMsg : Option MessageRec) (fetches : Nat → Option MessageRec)
    (fuel : Nat) : Except String MessageRec :=
  if !privateApiEnabled then Except.error "Private API is not enabled!"
  else if !minVentura then
    Except.error "Unsend message is only supported on macOS Ventura and newer!"
  else
    let currentEditDate := (preMsg.bind (fun m => m.dateEdited)).getD 0
    match resultAwaiter fetches (editExtraLoopCondition currentEditDate) fuel 0 with
    | some m => Except.ok m
    | none =>
      Except.error "Failed to unsend message! Message not edited (unsent) after 30 seconds!"

/-- The function `MessageInterface.notifySilencedMessage`: the Monterey and private-api
gates, the pre-check rejecting an already-notified message, then the awaiter
with the continuation predicate `data => !data.didNotifyRecipient`.  The
awaiter's result is returned as-is: the function has no null check after the
poll, so a timeout yields `Except.ok none`, not an error. -/
def notifySilencedMessage (privateApiEnabled minMonterey : Bool)
    (message : MessageRec) (fetches : Nat → Option MessageRec)
    (fuel : Nat) : Except String (Option MessageRec) :=
  if !privateApiEnabled then Except.error "Private API is not enabled!"
  else if !minMonterey then
    Except.error "Notifing silenced messages is only supported on macOS Monterey and newer!"
  else if message.didNotifyRecipient then
    Except.error "The recipient has already been notified of this message!"
  else
    Except.ok (resultAwaiter fetches
      (fun data =>
        match data with
        | some m => !m.didNotifyRecipient
        | none => true)
      fuel 0)

/-! ## Reaction match-text synthesis (`MessageInterface.sendReaction`) -/

/-- The attributed-body scan of `sendReaction`: walk the items' runs; on a
run whose part attribute equals the requested part index, record its
file-transfer GUID and stop as soon as the recorded GUID is truthy (a
non-empty string).  When no truthy GUID is found the final value is the
(possibly absent or empty) GUID of the last part-matching run. -/
def findMatchingGuid (body : List BodyItem) (partIndex : Nat) : Option String :=
  let matching :=
    (body.map (fun i => i.runs)).flatten.filter
      (fun r => r.partAttr == some partIndex)
  match matching.find? (fun r =>
      match r.transferGuid with
      | some g => g ≠ ""
      | none => false) with
  | some r => r.transferGuid
  | none => (matching.getLast?).bind (fun r => r.transferGuid)

/-- The attachment `sendReaction` selects for classification: the one whose
guid equals the matching GUID from the attributed-body scan, or — when that
finds nothing, the text is placeholder-only and attachments exist — the
first attachment. -/
def selectedAttachment (message : MessageRec) (partIndex : Nat)
    (isOnlyMedia : Bool) : Option AttachmentRec :=
  let mg := findMatchingGuid message.attributedBody partIndex
  match message.attachments.find? (fun a => some a.guid == mg) with
  | some a => some a
  | none =>
    if isOnlyMedia && !message.attachments.isEmpty then
      message.attachments.head?
    else none

/-- The media description `sendReaction` derives from a selected
attachment's mime type (and uti for core-audio). -/
def mediaDescription (a : AttachmentRec) : String :=
  let mime := a.mimeType.getD ""
  let uti := a.uti.getD ""
  if strStartsWith mime "image" then "an image"
  else if strStartsWith mime "video" then "a movie"
  else if strStartsWith mime "audio" || (strSplitOn uti "coreaudio-format").length > 1 then
    "an audio message"
  else "an attachment"

/-- JavaScript `s.replace(pat, "")` with a string pattern: remove the first
occurrence of `pat` (only) from `s`. -/
def removeFirstOccurrence (s pat : String) : String :=
  match strSplitOn s pat with
  | [] => s
  | [_] => s
  | p0 :: rest => p0 ++ String.intercalate pat rest

/-- The match text `sendReaction` synthesizes and registers as the
expectation's text.  `reactionPrefixFor` and `negativeReactionPrefixFor`
stand for the `reactionTextMap` and `negativeReactionTextMap` lookups
(mappings not included in the sources; per the spec they give the configured
sender-role prefix of each reaction type). -/
def buildReactionMatchText (reactionPrefixFor negativeReactionPrefixFor : String → String)
    (reaction : String) (message : MessageRec) (partIndex : Nat) : String :=
  let pre :=
    if strStartsWith reaction "-" then negativeReactionPrefixFor reaction
    else reactionPrefixFor reaction
  let text := message.universalText.getD ""
  let isOnlyMedia := text.length == 1 && text == invisibleMediaChar
  let quoted := "“" ++ text ++ "”"
  let msg :=
    match selectedAttachment message partIndex isOnlyMedia with
    | some a => mediaDescription a
    | none => removeFirstOccurrence quoted invisibleMediaChar
  pre ++ " " ++ msg

/-! ## `MessageInterface.sendMessageSync` (registration order, C9) -/

/-- A pending expectation as `sendMessageSync` constructs it
(`MessagePromise` constructor arguments). -/
structure PendingExpectation where
  chatGuid : String
  text : Option String
  isAttachment : Bool
  sentAt : Nat
  subject : Option String
  tempGuid : Option String
  deriving DecidableEq

/-- The mutable server state `sendMessageSync` touches: the message
manager's registered expectations and the typing cache. -/
structure OrchestratorState where
  promises : List PendingExpectation
  typingCache : List String
  deriving DecidableEq

/-- The function `MessageInterface.sendMessageSync` as a state-passing function.  The
dispatch-and-await outcomes of the two valid methods are parameters
(`appleScriptOutcome`, `privateApiOutcome`); `now` is the clock reading.
The function mirrors the source's order: validate the chat GUID, build the
awaiter with a 10-second offset sent-at, register it with the manager,
mutate the typing cache, and only then branch on the method — an unknown
method raises `Invalid send method` after those mutations. -/
def sendMessageSync (st : OrchestratorState) (now : Nat)
    (chatGuid : Option String) (message : Option String) (method : String)
    (subject tempGuid : Option String)
    (appleScriptOutcome privateApiOutcome : Except String MessageRec) :
    Except String MessageRec × OrchestratorState :=
  let cg := chatGuid.getD ""
  if cg == "" then (Except.error "No chat GUID provided", st)
  else
    let awaiter : PendingExpectation :=
      { chatGuid := cg, text := message, isAttachment := false,
        sentAt := now - 10000, subject := subject, tempGuid := tempGuid }
    let st1 : OrchestratorState := { st with promises := st.promises ++ [awaiter] }
    let st2 : OrchestratorState :=
      if st1.typingCache.contains cg then
        { st1 with typingCache := st1.typingCache.filter (fun c => c ≠ cg) }
      else st1
    if method == "apple-script" then (appleScriptOutcome, st2)
    else if method == "private-api" then (privateApiOutcome, st2)
    else (Except.error ("Invalid send method: " ++ method), st2)

/-! ## Configuration store (`ServerRepository`,
src/src/main/server/databases/server/index.ts) -/

/-- The typed values a config item can hold (`Date | string | boolean |
number`); dates are their millisecond timestamps, numbers are modelled as
integers (the repository's numeric parse, `/^-{0,1}\d+$/` then `Number`,
only ever produces integers). -/
inductive CfgValue where
  | str (s : String)
  | boolean (b : Bool)
  | num (n : Int)
  | date (ms : Int)
  deriving DecidableEq

/-- The function `ServerRepository.convertToDbValue`: booleans to `"1"`/`"0"`, dates to
their millisecond timestamp string, everything else via `String(...)`. -/
def convertToDbValue : CfgValue → String
  | CfgValue.boolean b => if b then "1" else "0"
  | CfgValue.date ms => toString ms
  | CfgValue.num n => toString n
  | CfgValue.str s => s

/-- The function `ServerRepository.convertFromDbValue`: the strings `"1"` and `"0"`
become booleans, integer-shaped strings become numbers, everything else
stays a string. -/
def convertFromDbValue (input : String) : CfgValue :=
  if input == "1" || input == "0" then CfgValue.boolean (input == "1")
  else
    match parseIntegerString input with
    | some n => CfgValue.num n
    | none => CfgValue.str input

/-- The config cache after `setConfig(name, value)`: the sanitised string is
stored under the name (`this.config[name] = saniVal`). -/
def setConfig (cfg : List (String × String)) (name : String)
    (value : CfgValue) : List (String × String) :=
  (name, convertToDbValue value) :: cfg.filter (fun p => p.1 ≠ name)

/-- The function `ServerRepository.getConfig`: `null` when the name is absent from the
cache, otherwise the cached string converted back to a typed value. -/
def getConfig (cfg : List (String × String)) (name : String) :
    Option CfgValue :=
  match cfg.find? (fun p => p.1 == name) with
  | some p => some (convertFromDbValue p.2)
  | none => none

/-! ## Concrete instances

Fixed records, entries and attachments used by the concrete theorems
below. -/

/-- An attachment declaring the transfer name `clip.caf`. -/
def attCaf : AttachmentRec :=
  { guid := "att-1", transferName := "clip.caf", mimeType := none, uti := none }

/-- An attachment with an image mime type. -/
def attImage : AttachmentRec :=
  { guid := "att-2", transferName := "img.png", mimeType := some "image/png",
    uti := none }

/-- A self-originated record in chat `C` at time 5 with all other fields at
their defaults; the other fixed records are variations of it. -/
def msgBase : MessageRec :=
  { guid := "m-0", text := none, universalText := none, isFromMe := true,
    chatGuid := "C", date := 5, dateEdited := none, didNotifyRecipient := false,
    isSent := true, attachments := [], attributedBody := [] }

/-- An outbox entry recording an attachment: its text starts with its temp
identifier and stores the name `clip.caf` after the separator. -/
def entryAttachment : QueueEntry :=
  { chatGuid := "C", text := "TG->clip.caf", tempGuid := "TG", dateCreated := 0 }

/-- An outbox entry recording a plain text send. -/
def entryHello : QueueEntry :=
  { chatGuid := "C", text := "Hello", tempGuid := "TG2", dateCreated := 0 }

/-- A record whose text equals `entryAttachment`'s stored text verbatim. -/
def msgVerbatimText : MessageRec :=
  { msgBase with guid := "m-1", text := some "TG->clip.caf" }

/-- A record with the single non-placeholder character `x` as text and an
attached `clip.caf`. -/
def msgSingleX : MessageRec :=
  { msgBase with guid := "m-2", text := some "x", attachments := [attCaf] }

/-- A record with placeholder-only text and an attached `clip.caf`. -/
def msgPlaceholderCaf : MessageRec :=
  { msgBase with guid := "m-3", text := some invisibleMediaChar, attachments := [attCaf] }

/-- Two equally-valid `Hello` records in chat `C` inside the window. -/
def msgHello1 : MessageRec :=
  { msgBase with guid := "m-4", text := some "Hello", date := 1 }

/-- A second `Hello` record, one tick later. -/
def msgHello2 : MessageRec :=
  { msgBase with guid := "m-5", text := some "Hello", date := 2 }

/-- A record whose recipient has not been notified. -/
def msgNotify : MessageRec :=
  { msgBase with guid := "m-6", text := some "hi" }

/-- The same record with the recipient already notified. -/
def msgNotified : MessageRec :=
  { msgNotify with didNotifyRecipient := true }

/-- A record with edit timestamp 5 (the captured baseline). -/
def msgEdit5 : MessageRec :=
  { msgBase with guid := "m-7", dateEdited := some 5 }

/-- The same record after a later edit, timestamp 9. -/
def msgEdit9 : MessageRec :=
  { msgBase with guid := "m-7", dateEdited := some 9 }

/-- A poll sequence observing edit timestamp 5 first, then 9. -/
def editFetches : Nat → Option MessageRec :=
  fun k => if k == 0 then some msgEdit5 else some msgEdit9

/-- A record whose rendered text mixes the placeholder character with other
characters, with no attachments. -/
def msgMixedPlaceholder : MessageRec :=
  { msgBase with guid := "m-8", universalText := some ("a" ++ invisibleMediaChar ++ "b") }

/-- A record classified as an image: placeholder-only rendered text and one
image attachment. -/
def msgImageOnly : MessageRec :=
  { msgBase with guid := "m-9", universalText := some invisibleMediaChar, attachments := [attImage] }

/-- A dispatched record not yet marked sent. -/
def msgUnsent : MessageRec :=
  { msgBase with guid := "m-10", isSent := false }

/-- A fixed reaction-prefix lookup giving `Loved` for the `love` reaction. -/
def lovePrefixMap : String → String :=
  fun r => if r == "love" then "Loved" else "Reacted to"

/-- A fixed negative-reaction-prefix lookup. -/
def negPrefixMap : String → String :=
  fun _ => "Removed a reaction from"

/-! ## Theorems -/

/-- Auxiliary: when the poll-until awaiter returns a value, the continuation
predicate rejected waiting on that value. -/
theorem resultAwaiter_stop (fetches : Nat → Option MessageRec)
    (keep : Option MessageRec → Bool) :
    ∀ fuel k m, resultAwaiter fetches keep fuel k = some m →
      keep (some m) = false := by
  intro fuel
  induction fuel with
  | zero => intro k m h; simp [resultAwaiter] at h
  | succ n ih =>
    intro k m h
    rw [resultAwaiter] at h
    cases hf : fetches k with
    | none =>
      rw [hf] at h
      exact ih _ _ h
    | some x =>
      rw [hf] at h
      simp only [] at h
      cases hk : keep (some x) with
      | true =>
        simp only [hk, if_true] at h
        exact ih _ _ h
      | false =>
        simp only [hk, Bool.false_eq_true, if_false, Option.some.injEq] at h
        rw [← h]
        exact hk

/-- C2: outbox-entry expiry.  On a tick at clock `now`, an entry whose age
exceeds 60 seconds is removed exactly once and yields exactly one timeout
event, with no candidate query effects (no match events, no cache
additions); an entry aged 60 seconds or less never produces a timeout event
on that tick. -/
theorem entry_expiry (now : Nat) (db : List MessageRec) (entry : QueueEntry) :
    (now - entry.dateCreated > 1000 * 60 →
      processEntry now db entry =
        { removeCalls := 1, events := [QueueEvent.timeout entry],
          cacheAdds := [] }) ∧
    (now - entry.dateCreated ≤ 1000 * 60 →
      ∀ e, QueueEvent.timeout e ∉ (processEntry now db entry).events) := by
  constructor
  · intro h
    simp [processEntry, h]
  · intro h e
    have hn : ¬ (now - entry.dateCreated > 1000 * 60) := by omega
    simp only [processEntry, hn, if_false, List.mem_map]
    rintro ⟨m, -, heq⟩
    exact QueueEvent.noConfusion heq

/-- Witness for `entry_expiry`: an entry created at 0 is expired on a tick
at 70000 ms and is intact on a tick at 10000 ms. -/
theorem entry_expiry_witness :
    processEntry 70000 [BlueBubbles.msgHello1] entryHello =
      { removeCalls := 1, events := [QueueEvent.timeout entryHello],
        cacheAdds := [] } ∧
    QueueEvent.timeout entryHello ∉
      (processEntry 10000 [BlueBubbles.msgHello1] entryHello).events :=
  ⟨(entry_expiry 70000 [BlueBubbles.msgHello1] entryHello).1 (by decide),
   (entry_expiry 10000 [BlueBubbles.msgHello1] entryHello).2 (by decide)
     entryHello⟩

/-- C5: attachment name rewrite.  For an audio send whose name ends in
`.mp3`, the name recorded for the awaiter replaces that suffix by `.caf`;
a non-audio send or another extension records the name unchanged.  In
particular `clip.mp3` records `clip.caf`, and an entry storing `clip.caf`
matches a self-originated placeholder record in the same chat whose
attachment declares transfer name `clip.caf`. -/
theorem attachment_name_rewrite (n : String) (isAudio : Bool) :
    (strEndsWith n ".mp3" = true →
      rewriteAttachmentName (some n) true = some (n.dropRight 4 ++ ".caf")) ∧
    (rewriteAttachmentName (some n) false = some n) ∧
    (strEndsWith n ".mp3" = false →
      rewriteAttachmentName (some n) isAudio = some n) ∧
    rewriteAttachmentName (some "clip.mp3") true = some "clip.caf" ∧
    msgPlaceholderCaf ∈ queueFilter entryAttachment 10 [msgPlaceholderCaf] := by
  refine ⟨?_, ?_, ?_, by decide, by decide⟩
  · intro h
    simp [rewriteAttachmentName, h]
  · simp [rewriteAttachmentName]
  · intro h
    simp [rewriteAttachmentName, h]

/-- Witness for `attachment_name_rewrite` at the name `clip.mp3`. -/
theorem attachment_name_rewrite_witness :
    rewriteAttachmentName (some "clip.mp3") true = some "clip.caf" :=
  (attachment_name_rewrite "clip.mp3" true).1 (by decide)

/-- C6: attachment partial-success lenience.  When the private-api dispatch
returned a record that is already marked sent, the fallback awaiter's
outcome is ignored and the record is returned; when it is not yet marked
sent and the fallback fails, the failure is swallowed and the record is
returned; when the fallback succeeds its record is returned; and a failure
is re-raised only when no record was obtained from dispatch. -/
theorem attachment_partial_success (m m2 : MessageRec)
    (a a2 : Except String MessageRec) (d : Option MessageRec) (e s : String) :
    (m.isSent = true →
      attachmentPrivateApiConfirm (some m) a = Except.ok (some m) ∧
      attachmentPrivateApiConfirm (some m) a =
        attachmentPrivateApiConfirm (some m) a2) ∧
    (m.isSent = false →
      attachmentPrivateApiConfirm (some m) (Except.error e) =
        Except.ok (some m)) ∧
    (m.isSent = false →
      attachmentPrivateApiConfirm (some m) (Except.ok m2) =
        Except.ok (some m2)) ∧
    (attachmentPrivateApiConfirm d a = Except.error s → d = none) := by
  refine ⟨?_, ?_, ?_, ?_⟩
  · intro h
    constructor <;> simp [attachmentPrivateApiConfirm, h]
  · intro h
    simp [attachmentPrivateApiConfirm, h]
  · intro h
    simp [attachmentPrivateApiConfirm, h]
  · intro h
    cases d with
    | none => rfl
    | some x =>
      cases hx : x.isSent with
      | true => simp [attachmentPrivateApiConfirm, hx] at h
      | false =>
        cases a with
        | ok v => simp [attachmentPrivateApiConfirm, hx] at h
        | error ev => simp [attachmentPrivateApiConfirm, hx] at h

/-- Witness for `attachment_partial_success`: a record not yet marked sent
together with a failing fallback still yields the record. -/
theorem attachment_partial_success_witness :
    attachmentPrivateApiConfirm (some msgUnsent) (Except.error "timeout") =
      Except.ok (some msgUnsent) :=
  (attachment_partial_success msgUnsent msgUnsent (Except.error "timeout")
      (Except.error "timeout") (some msgUnsent) "timeout" "timeout").2.1
    (by decide)

/-- C7: `notifySilencedMessage` rejects an already-notified message, but on
a confirmation poll that never observes the recipient-notified flag it
returns a null record as a non-error result (`Except.ok none`) instead of
raising a timeout error: the function has no null check after its awaiter,
unlike every sibling operation. -/
theorem notify_timeout_returns_null :
    notifySilencedMessage true true msgNotify (fun _ => some msgNotify) 5 =
      Except.ok none ∧
    (∀ fetches fuel, notifySilencedMessage true true msgNotified fetches fuel =
      Except.error "The recipient has already been notified of this message!") := by
  refine ⟨by rfl, ?_⟩
  intro fetches fuel
  rfl

/-- C10: config round trip.  Setting a boolean and reading it back returns
the same boolean, while setting the numbers 0 or 1 and reading them back
returns the booleans `false` and `true`: `convertToDbValue` stringifies
them to `"0"`/`"1"` and `convertFromDbValue` maps exactly those strings to
booleans before the numeric parse. -/
theorem config_round_trip (cfg : List (String × String)) (name : String)
    (b : Bool) :
    getConfig (setConfig cfg name (CfgValue.boolean b)) name =
      some (CfgValue.boolean b) ∧
    getConfig (setConfig cfg name (CfgValue.num 0)) name =
      some (CfgValue.boolean false) ∧
    getConfig (setConfig cfg name (CfgValue.num 1)) name =
      some (CfgValue.boolean true) := by
  have key : ∀ v : CfgValue, getConfig (setConfig cfg name v) name =
      some (convertFromDbValue (convertToDbValue v)) := by
    intro v
    simp [getConfig, setConfig, List.find?]
  refine ⟨?_, ?_, ?_⟩
  · rw [key]
    cases b <;> decide
  · rw [key]
    decide
  · rw [key]
    decide

/-- C9: registration happens before method validation.  With a non-empty
chat GUID and a method that is neither `apple-script` nor `private-api`,
`sendMessageSync` fails with `Invalid send method`, yet the resulting state
holds the newly registered (and never resolved) expectation — the registry
is not left unchanged — and the chat has been dropped from the typing cache
when it was present. -/
theorem invalid_method_leaves_registration (st : OrchestratorState)
    (now : Nat) (cg : String) (message : Option String) (method : String)
    (subject tempGuid : Option String)
    (aso pao : Except String MessageRec)
    (hcg : cg ≠ "") (h1 : method ≠ "apple-script")
    (h2 : method ≠ "private-api") :
    (sendMessageSync st now (some cg) message method subject tempGuid aso pao).1 =
      Except.error ("Invalid send method: " ++ method) ∧
    (sendMessageSync st now (some cg) message method subject tempGuid aso pao).2.promises =
      st.promises ++
        [{ chatGuid := cg, text := message, isAttachment := false,
           sentAt := now - 10000, subject := subject, tempGuid := tempGuid }] ∧
    (sendMessageSync st now (some cg) message method subject tempGuid aso pao).2.promises ≠
      st.promises ∧
    (cg ∈ st.typingCache →
      cg ∉ (sendMessageSync st now (some cg) message method subject tempGuid aso pao).2.typingCache) := by
  have hc : (cg == "") = false := beq_eq_false_iff_ne.mpr hcg
  have hm1 : (method == "apple-script") = false := beq_eq_false_iff_ne.mpr h1
  have hm2 : (method == "private-api") = false := beq_eq_false_iff_ne.mpr h2
  have hpr : (sendMessageSync st now (some cg) message method subject tempGuid
      aso pao).2.promises =
      st.promises ++
        [{ chatGuid := cg, text := message, isAttachment := false,
           sentAt := now - 10000, subject := subject, tempGuid := tempGuid }] := by
    by_cases hmem : cg ∈ st.typingCache <;>
      simp [sendMessageSync, hc, hm1, hm2, hmem]
  refine ⟨?_, hpr, ?_, ?_⟩
  · simp [sendMessageSync, hc, hm1, hm2]
  · rw [hpr]
    intro hEq
    have hlen := congrArg List.length hEq
    simp at hlen
  · intro hmem hmem2
    simp [sendMessageSync, hc, hm1, hm2, hmem, List.mem_filter] at hmem2

/-- Witness for `invalid_method_leaves_registration`: a concrete call with
method `bogus` errors while appending the expectation and clearing the
typing cache. -/
theorem invalid_method_leaves_registration_witness :
    (sendMessageSync { promises := [], typingCache := ["C"] } 20000 (some "C")
        (some "hi") "bogus" none none (Except.error "x") (Except.error "y")).1 =
      Except.error ("Invalid send method: " ++ "bogus") ∧
    "C" ∉ (sendMessageSync { promises := [], typingCache := ["C"] } 20000
        (some "C") (some "hi") "bogus" none none (Except.error "x")
        (Except.error "y")).2.typingCache :=
  ⟨(invalid_method_leaves_registration { promises := [], typingCache := ["C"] }
      20000 "C" (some "hi") "bogus" none none (Except.error "x")
      (Except.error "y") (by decide) (by decide) (by decide)).1,
   (invalid_method_leaves_registration { promises := [], typingCache := ["C"] }
      20000 "C" (some "hi") "bogus" none none (Except.error "x")
      (Except.error "y") (by decide) (by decide) (by decide)).2.2.2
     (by decide)⟩

/-- C3: edit and unsend confirmation baseline.  The continuation predicate
keeps waiting exactly on records whose edit timestamp is at most the
baseline, treats a missing record as edit timestamp 0 (keep waiting), and
whenever `editMessage` or `unsendMessage` resolves with a record, that
record's edit timestamp strictly exceeds the baseline captured from the
pre-dispatch fetch. -/
theorem edit_unsend_baseline (pe mv : Bool) (preMsg : Option MessageRec)
    (fetches : Nat → Option MessageRec) (fuel b : Nat) (m r : MessageRec) :
    (editExtraLoopCondition b (some r) = true ↔ r.dateEdited.getD 0 ≤ b) ∧
    editExtraLoopCondition b none = true ∧
    (editMessage pe mv preMsg fetches fuel = Except.ok m →
      (preMsg.bind (fun x => x.dateEdited)).getD 0 < m.dateEdited.getD 0) ∧
    (unsendMessage pe mv preMsg fetches fuel = Except.ok m →
      (preMsg.bind (fun x => x.dateEdited)).getD 0 < m.dateEdited.getD 0) := by
  refine ⟨by simp [editExtraLoopCondition], by simp [editExtraLoopCondition], ?_, ?_⟩
  · intro h
    cases pe with
    | false => simp [editMessage] at h
    | true =>
      cases mv with
      | false => simp [editMessage] at h
      | true =>
        simp only [editMessage, Bool.not_true, Bool.false_eq_true, if_false] at h
        cases hr : resultAwaiter fetches
            (editExtraLoopCondition ((preMsg.bind (fun x => x.dateEdited)).getD 0))
            fuel 0 with
        | none => rw [hr] at h; simp at h
        | some x =>
          rw [hr] at h
          simp only [Except.ok.injEq] at h
          have hstop := resultAwaiter_stop fetches
            (editExtraLoopCondition ((preMsg.bind (fun y => y.dateEdited)).getD 0))
            fuel 0 x hr
          rw [h] at hstop
          simp [editExtraLoopCondition] at hstop
          omega
  · intro h
    cases pe with
    | false => simp [unsendMessage] at h
    | true =>
      cases mv with
      | false => simp [unsendMessage] at h
      | true =>
        simp only [unsendMessage, Bool.not_true, Bool.false_eq_true, if_false] at h
        cases hr : resultAwaiter fetches
            (editExtraLoopCondition ((preMsg.bind (fun x => x.dateEdited)).getD 0))
            fuel 0 with
        | none => rw [hr] at h; simp at h
        | some x =>
          rw [hr] at h
          simp only [Except.ok.injEq] at h
          have hstop := resultAwaiter_stop fetches
            (editExtraLoopCondition ((preMsg.bind (fun y => y.dateEdited)).getD 0))
            fuel 0 x hr
          rw [h] at hstop
          simp [editExtraLoopCondition] at hstop
          omega

/-- Witness for `edit_unsend_baseline`: with baseline 5 and polls observing
edit timestamps 5 then 9, the edit resolves on the 9 record (not the 5
observation) and 5 < 9. -/
theorem edit_unsend_baseline_witness :
    editMessage true true (some msgEdit5) editFetches 5 = Except.ok msgEdit9 ∧
    ((some msgEdit5).bind (fun x => x.dateEdited)).getD 0 <
      msgEdit9.dateEdited.getD 0 :=
  ⟨by rfl,
   (edit_unsend_baseline true true (some msgEdit5) editFetches 5 5 msgEdit9
      msgEdit9).2.2.1 (by rfl)⟩

/-- Auxiliary for the matching-rule characterisation: `textLengthOne` holds
exactly on records carrying a non-null text of length one. -/
theorem textLengthOne_iff (m : MessageRec) :
    textLengthOne m = true ↔ ∃ t, m.text = some t ∧ t.length = 1 := by
  cases h : m.text <;> simp [textLengthOne, h]

/-- Auxiliary: `transferNameMatches` holds exactly when some attachment of
the record declares the entry's stored name. -/
theorem transferNameMatches_iff (entry : QueueEntry) (m : MessageRec) :
    transferNameMatches entry m = true ↔
      ∃ a ∈ m.attachments, some a.transferName = storedName entry.text := by
  cases h : storedName entry.text <;> simp [transferNameMatches, h]

/-- Auxiliary: `textEquals` holds exactly on records whose text equals the
entry's stored text. -/
theorem textEquals_iff (entry : QueueEntry) (m : MessageRec) :
    textEquals entry m = true ↔ m.text = some entry.text := by
  cases h : m.text <;> simp [textEquals, h]

/-- C1 (counterexample): the matching rule as worded by the specification
disagrees with the code.  For the attachment entry storing
`TG->clip.caf`, a self-originated in-window record whose text equals the
stored text verbatim satisfies the spec's rule but is not returned by the
code's query, while a record with the single non-placeholder character `x`
and a `clip.caf` attachment is returned by the code but fails the spec's
rule. -/
theorem spec_match_rule_cex :
    specMatchRule entryAttachment msgVerbatimText = true ∧
    queueFilter entryAttachment 10 [msgVerbatimText] = [] ∧
    specMatchRule entryAttachment msgSingleX = false ∧
    queueFilter entryAttachment 10 [msgSingleX] = [msgSingleX] := by decide

/-- C1 (amended): the candidate query counts a record for an entry iff the
record is in the store, self-originated, in the entry's chat, dated at or
after the entry's creation and before the scan time, and — when the entry's
text starts with its temp identifier — has a text of length exactly one
together with an attachment declaring the name stored after the `->`
separator (verbatim text equality is not considered in this case), and
otherwise has exactly the entry's stored text. -/
theorem queueFilter_matching_rule (entry : QueueEntry) (now : Nat)
    (db : List MessageRec) (m : MessageRec) :
    m ∈ queueFilter entry now db ↔
      m ∈ db ∧ m.isFromMe = true ∧ m.chatGuid = entry.chatGuid ∧
      entry.dateCreated ≤ m.date ∧ m.date < now ∧
      (if strStartsWith entry.text entry.tempGuid = true then
        (∃ t, m.text = some t ∧ t.length = 1) ∧
        ∃ a ∈ m.attachments, some a.transferName = storedName entry.text
      else m.text = some entry.text) := by
  by_cases hs : strStartsWith entry.text entry.tempGuid = true
  · simp only [queueFilter, whereItems, hs, if_true, List.mem_filter]
    simp [textLengthOne_iff, transferNameMatches_iff, Option.isSome_iff_exists,
      and_assoc]
    tauto
  · simp only [queueFilter, whereItems, hs, if_false, List.mem_filter]
    simp [hs, textEquals_iff, Option.isSome_iff_exists, and_assoc]
    tauto

/-- C8 (counterexample): when the bounded candidate query returns two
equally-valid records for one entry, the scanner emits two matched events
for that entry on the tick and invokes its removal twice — not at most one
emission and exactly one removal. -/
theorem multi_match_emission_cex :
    (processEntry 10 [msgHello1, msgHello2] entryHello).events =
      [QueueEvent.matched "TG2" msgHello1, QueueEvent.matched "TG2" msgHello2] ∧
    (processEntry 10 [msgHello1, msgHello2] entryHello).removeCalls = 2 := by
  decide

/-- C8 (amended): on a tick where the entry has not expired, the scanner
emits exactly one matched event and invokes removal exactly once per record
returned by the bounded candidate query, which holds at most three
records; an entry with at least one match is removed on that tick. -/
theorem per_match_emission (now : Nat) (db : List MessageRec)
    (entry : QueueEntry) (h : now - entry.dateCreated ≤ 1000 * 60) :
    (processEntry now db entry).events =
      (queueMatches entry now db).map
        (fun m => QueueEvent.matched entry.tempGuid m) ∧
    (processEntry now db entry).removeCalls =
      (queueMatches entry now db).length ∧
    (queueMatches entry now db).length ≤ 3 := by
  have hn : ¬ (now - entry.dateCreated > 1000 * 60) := by omega
  refine ⟨by simp [processEntry, hn], by simp [processEntry, hn], ?_⟩
  simp only [queueMatches]
  exact List.length_take_le 3 (sortByDateAsc (queueFilter entry now db))

/-- Witness for `per_match_emission` on the two-record store. -/
theorem per_match_emission_witness :
    (processEntry 10 [msgHello1, msgHello2] entryHello).removeCalls =
      (queueMatches entryHello 10 [msgHello1, msgHello2]).length :=
  (per_match_emission 10 [msgHello1, msgHello2] entryHello (by decide)).2.1

/-- C4 (counterexample): the registered expectation text is not always the
prefix, a space and the message's text in quotation marks: for a `love`
reaction to a record whose rendered text mixes the placeholder character
with other characters (and which is not classified as media), the code
removes the first placeholder occurrence from the quoted text. -/
theorem reaction_text_placeholder_cex :
    buildReactionMatchText lovePrefixMap negPrefixMap "love"
        msgMixedPlaceholder 0 = "Loved “ab”" ∧
    buildReactionMatchText lovePrefixMap negPrefixMap "love"
        msgMixedPlaceholder 0 ≠
      "Loved " ++ "“" ++ ("a" ++ invisibleMediaChar ++ "b") ++ "”" := by
  decide

/-- C4 (amended): the synthesized expectation text is the reaction-type
prefix (negative map for `-`-prefixed reactions), a space, and either the
selected attachment's media description — `an image` whenever the
attachment's mime type starts with `image` — or, when no attachment is
selected, the message's rendered text in quotation marks with the first
occurrence of the placeholder character removed. -/
theorem reaction_text_synthesis (pf npf : String → String) (reaction : String)
    (message : MessageRec) (partIndex : Nat) (a : AttachmentRec) :
    (selectedAttachment message partIndex
        ((message.universalText.getD "").length == 1 &&
          (message.universalText.getD "") == invisibleMediaChar) = some a →
      buildReactionMatchText pf npf reaction message partIndex =
        (if strStartsWith reaction "-" then npf reaction else pf reaction) ++
          " " ++ mediaDescription a) ∧
    (strStartsWith (a.mimeType.getD "") "image" = true →
      mediaDescription a = "an image") ∧
    (selectedAttachment message partIndex
        ((message.universalText.getD "").length == 1 &&
          (message.universalText.getD "") == invisibleMediaChar) = none →
      buildReactionMatchText pf npf reaction message partIndex =
        (if strStartsWith reaction "-" then npf reaction else pf reaction) ++
          " " ++
          removeFirstOccurrence ("“" ++ message.universalText.getD "" ++ "”")
            invisibleMediaChar) := by
  refine ⟨?_, ?_, ?_⟩
  · intro h
    simp [buildReactionMatchText, h]
  · intro h
    simp [mediaDescription, h]
  · intro h
    simp [buildReactionMatchText, h]

/-- Witness for `reaction_text_synthesis`: a `love` reaction to an
image-classified record yields the configured love prefix followed by
`an image`. -/
theorem reaction_text_synthesis_witness :
    buildReactionMatchText lovePrefixMap negPrefixMap "love" msgImageOnly 0 =
      "Loved an image" := by
  have h1 := (reaction_text_synthesis lovePrefixMap negPrefixMap "love"
    msgImageOnly 0 attImage).1 (by decide)
  have h2 := (reaction_text_synthesis lovePrefixMap negPrefixMap "love"
    msgImageOnly 0 attImage).2.1 (by decide)
  rw [h1, h2]
  decide

end BlueBubbles
